import Mathlib

/-!
Verification of the PoolinGH core: a rate-limit-aware GitHub API client
state machine (`src/helper/github-api-client.helper.js`) and the shared
dispatch queue (`src/helper/github-api-queue.helper.js`).

The JavaScript source is embedded shallowly:

* JS numbers that can be `NaN` (values produced by `Number.parseInt` /
  `parseInt` on header strings) are modelled by `JSNum := Option Int`,
  with `none` playing the role of `NaN`; comparisons against `NaN` are
  `false`, exactly as in JS.
* Mutable objects become records threaded through pure state-transition
  functions; `Date.now()` becomes an explicit `now : Int` argument.
* `setTimeout` handles become an `Option` field holding the scheduled
  delay; the timer callback is a separate transition function.
* Logging is an out-of-scope side effect; only the branch structure that
  decides whether a warning is emitted is modelled where a claim needs it.
-/

set_option autoImplicit false

namespace PoolinGH

/-- JS number that may be `NaN` (`none`). Produced by `parseInt` on
arbitrary strings. -/
abbrev JSNum := Option Int

/-- JS addition: `NaN` propagates. -/
def jadd : JSNum → JSNum → JSNum
  | some a, some b => some (a + b)
  | _, _ => none

/-- JS subtraction: `NaN` propagates. -/
def jsub : JSNum → JSNum → JSNum
  | some a, some b => some (a - b)
  | _, _ => none

/-- JS multiplication by an integer constant: `NaN` propagates. -/
def jmul : JSNum → Int → JSNum
  | some a, k => some (a * k)
  | none, _ => none

/-- JS comparison `x <= 0`: false when `x` is `NaN`. -/
def jleZero : JSNum → Bool
  | some a => decide (a ≤ 0)
  | none => false

/-- JS comparison `x > 0`: false when `x` is `NaN`. -/
def jgtZero : JSNum → Bool
  | some a => decide (0 < a)
  | none => false

/-- Digit run to a natural number, base 10. -/
def digitsVal (ds : List Char) : Nat :=
  ds.foldl (fun n c => n * 10 + (c.toNat - 48)) 0

/-- Leading digit run of `parseInt`: `none` when there is no digit
(`NaN` in JS). -/
def parseDigits (cs : List Char) : JSNum :=
  let ds := cs.takeWhile Char.isDigit
  if ds.isEmpty then none else some (Int.ofNat (digitsVal ds))

/-- JS `parseInt(s)` (base 10): skip leading whitespace, optional sign,
then the longest digit prefix; `NaN` (`none`) when no digits follow. -/
def parseIntJS (s : String) : JSNum :=
  match s.data.dropWhile Char.isWhitespace with
  | '+' :: rest => parseDigits rest
  | '-' :: rest => (parseDigits rest).map Int.neg
  | rest => parseDigits rest

/-- JS truthiness of a possibly-absent string property: `undefined` and
the empty string are falsy, every other string is truthy. -/
def truthyStr : Option String → Bool
  | none => false
  | some s => !(s == "")

/-- Response headers recognised by the core (absent properties are
`none`, mirroring `undefined` in JS). -/
structure Headers where
  xRatelimitRemaining : Option String
  xRatelimitReset : Option String
  retryAfter : Option String
  deriving DecidableEq

/-- Headers object with no recognised header set. -/
def Headers.empty : Headers :=
  { xRatelimitRemaining := none, xRatelimitReset := none, retryAfter := none }

/-- State of `GitHubApiClient` (src: `github-api-client.helper.js`,
constructor). `resumeTimer = some d` models a pending `setTimeout`
handle scheduled with delay `d`; `none` models the cleared (`null`)
handle. -/
structure GitHubApiClient where
  token : String
  authorized : Bool
  busy : Bool
  remainingRequests : JSNum
  resetAt : JSNum
  safetyRemainingRequestCount : Int
  tokenResumeBufferTime : Int
  resumeTimer : Option JSNum
  deriving DecidableEq

namespace GitHubApiClient

/-- Constructor `new GitHubApiClient(token, safety, buffer)`:
authorized, not busy, zero counters, no pending timer. -/
def mk0 (token : String) (safety buffer : Int) : GitHubApiClient :=
  { token := token
    authorized := true
    busy := false
    remainingRequests := some 0
    resetAt := some 0
    safetyRemainingRequestCount := safety
    tokenResumeBufferTime := buffer
    resumeTimer := none }

/-- `isAuthorized()`. -/
def isAuthorized (c : GitHubApiClient) : Bool := c.authorized

/-- `isBusy()`. -/
def isBusy (c : GitHubApiClient) : Bool := c.busy

/-- `_resume()`: re-authorize and clear the timer handle. -/
def resume (c : GitHubApiClient) : GitHubApiClient :=
  { c with authorized := true, resumeTimer := none }

/-- `pause(resetAt)` at current time `now`: unauthorize, cancel any
pending resume timer, compute `delay = resetAt - Date.now() + buffer`;
resume immediately when `delay <= 0`, otherwise schedule a one-shot
resume timer with that delay. -/
def pause (c : GitHubApiClient) (now : Int) (resetAt : JSNum) : GitHubApiClient :=
  let c1 : GitHubApiClient := { c with authorized := false, resumeTimer := none }
  let delay := jadd (jsub resetAt (some now)) (some c.tokenResumeBufferTime)
  if jleZero delay then resume c1
  else { c1 with resumeTimer := some delay }

/-- Firing of the pending resume timer scheduled by `pause`: the
callback runs `_resume()`. When no timer is pending nothing happens. -/
def fireResumeTimer (c : GitHubApiClient) : GitHubApiClient :=
  match c.resumeTimer with
  | some _ => resume c
  | none => c

/-- Guard of `_refresh`: `headers && headers['x-ratelimit-remaining'] &&
headers['x-ratelimit-reset']` (JS truthiness). -/
def hasRateLimitHeaders : Option Headers → Bool
  | none => false
  | some h => truthyStr h.xRatelimitRemaining && truthyStr h.xRatelimitReset

/-- `_refresh(headers)` takes the warning branch exactly when the rate
limit headers are absent or falsy. -/
def refreshWarns (headers : Option Headers) : Bool :=
  !hasRateLimitHeaders headers

/-- `_refresh(headers)` at current time `now`: when both rate-limit
headers are (truthily) present, store the parsed remaining count and
the parsed reset time × 1000, then pause until the stored reset time if
`remaining - safety ≤ 0`; otherwise only a warning is logged and the
state is untouched. -/
def refresh (c : GitHubApiClient) (now : Int) (headers : Option Headers) :
    GitHubApiClient :=
  match headers with
  | some h =>
    if truthyStr h.xRatelimitRemaining && truthyStr h.xRatelimitReset then
      let c1 : GitHubApiClient :=
        { c with
          remainingRequests := parseIntJS (h.xRatelimitRemaining.getD "")
          resetAt := jmul (parseIntJS (h.xRatelimitReset.getD "")) 1000 }
      if jleZero (jsub c1.remainingRequests (some c1.safetyRemainingRequestCount)) then
        pause c1 now c1.resetAt
      else c1
    else c
  | none => c

end GitHubApiClient

/-- Error response attached to a transport failure (§6 of the spec:
`{message, response?: {status, headers}}`). -/
structure ErrResponse where
  status : Int
  headers : Headers
  deriving DecidableEq

/-- Transport failure shape: a message and an optional HTTP response. -/
structure AxiosError where
  message : String
  response : Option ErrResponse
  deriving DecidableEq

/-- Transport success shape: an opaque payload and optional headers. -/
structure AxiosResponse (δ : Type) where
  data : δ
  headers : Option Headers
  deriving DecidableEq

/-- Argument slot of `request(url, params)`. JS distinguishes a missing
argument (`undefined`, which triggers the `params = {}` default) from an
explicit `null` (which does NOT trigger the default). -/
inductive ParamsArg (π : Type) where
  | undef
  | null
  | obj (p : π)
  deriving DecidableEq

namespace GitHubApiClient

/-- Success continuation of `request`: `_refresh(response?.headers)`,
clear `busy`, return the response unchanged. -/
def requestOnSuccess {δ : Type} (c : GitHubApiClient) (now : Int)
    (resp : AxiosResponse δ) : GitHubApiClient × AxiosResponse δ :=
  let c1 := refresh c now resp.headers
  ({ c1 with busy := false }, resp)

/-- Failure continuation of `request`: `_refresh(error?.response?.headers)`;
when the status is 403 or 429, pause until `now + Retry-After × 1000` if
that header is (truthily) present, else until the stored `resetAt` when
it is `> 0`; clear `busy`; reject with the original error unchanged. -/
def requestOnFailure (c : GitHubApiClient) (now : Int) (err : AxiosError) :
    GitHubApiClient × AxiosError :=
  let c1 := refresh c now (err.response.map ErrResponse.headers)
  let c2 :=
    match err.response with
    | some resp =>
      if resp.status == 403 || resp.status == 429 then
        if truthyStr resp.headers.retryAfter then
          pause c1 now
            (jadd (some now) (jmul (parseIntJS (resp.headers.retryAfter.getD "")) 1000))
        else if jgtZero c1.resetAt then pause c1 now c1.resetAt
        else c1
      else c1
    | none => c1
  ({ c2 with busy := false }, err)

/-- `request(url, params)` with the transport outcome supplied as an
oracle. First component: the client state after the call settles.
Second component: `Except.error` models a synchronous throw while
building the axios config (accessing `params.method` on `null` throws a
`TypeError`, because the `params = {}` default only applies to
`undefined`); `Except.ok` models the returned promise, which settles
with the transport outcome. -/
def request {π δ : Type} (c : GitHubApiClient) (now : Int) (_url : String)
    (params : ParamsArg π) (outcome : Except AxiosError (AxiosResponse δ)) :
    GitHubApiClient × Except String (Except AxiosError (AxiosResponse δ)) :=
  let c1 : GitHubApiClient := { c with busy := true }
  match params with
  | ParamsArg.null =>
    (c1, Except.error "TypeError: Cannot read properties of null (reading method)")
  | _ =>
    match outcome with
    | Except.ok resp =>
      let r := requestOnSuccess c1 now resp
      (r.1, Except.ok (Except.ok r.2))
    | Except.error e =>
      let r := requestOnFailure c1 now e
      (r.1, Except.ok (Except.error r.2))

end GitHubApiClient

/-- Value object `GitHubApiRequest` (src:
`github-api-request.model.js`): a target URL plus opaque `params` and
`callback` payloads (both are never inspected by the queue core). -/
structure GitHubApiRequest (α β : Type) where
  url : String
  params : α
  callback : β
  deriving DecidableEq

namespace GitHubApiRequest

/-- `getUrl()`. -/
def getUrl {α β : Type} (r : GitHubApiRequest α β) : String := r.url

/-- `getParams()`. -/
def getParams {α β : Type} (r : GitHubApiRequest α β) : α := r.params

/-- `getCallback()`. -/
def getCallback {α β : Type} (r : GitHubApiRequest α β) : β := r.callback

end GitHubApiRequest

/-- `this._errorUrls[u]` read with JS semantics: an absent key reads as
`undefined`, which the counting code only ever meets behind a falsy
check, so it is modelled as 0. -/
def errLookup (m : List (String × Nat)) (u : String) : Nat :=
  match m.find? (fun p => p.1 == u) with
  | some p => p.2
  | none => 0

/-- The error-count update of the completion handler:
`if (!errorUrls[url]) errorUrls[url] = 1; else errorUrls[url] += 1`.
A JS object keeps one entry per key in insertion order. -/
def errBump (m : List (String × Nat)) (u : String) : List (String × Nat) :=
  match m with
  | [] => [(u, 1)]
  | p :: rest =>
    if p.1 == u then (p.1, if p.2 == 0 then 1 else p.2 + 1) :: rest
    else p :: errBump rest u

/-- Sum of the per-URL error counters. -/
def sumCounts (m : List (String × Nat)) : Nat := (m.map Prod.snd).sum

/-- State of `GitHubApiQueue` (src: `github-api-queue.helper.js`,
constructor). `queries` lists the backlog with index 0 = front of the
JS array (so `pop` removes the last element and `unshift` prepends). -/
structure GitHubApiQueue (α β : Type) where
  clients : List GitHubApiClient
  queries : List (GitHubApiRequest α β)
  isStopped : Bool
  errorCount : Nat
  errorUrls : List (String × Nat)
  maxErrorCountPerRequest : Nat
  maxErrorCountInTotal : Nat
  deriving DecidableEq

namespace GitHubApiQueue

variable {α β : Type}

/-- Constructor `new GitHubApiQueue(clients, maxPerRequest, maxTotal)`. -/
def mk0 (clients : List GitHubApiClient) (mpr mtot : Nat) : GitHubApiQueue α β :=
  { clients := clients
    queries := []
    isStopped := false
    errorCount := 0
    errorUrls := []
    maxErrorCountPerRequest := mpr
    maxErrorCountInTotal := mtot }

/-- `getClients()`. -/
def getClients (q : GitHubApiQueue α β) : List GitHubApiClient := q.clients

/-- `getQueueLength()`. -/
def getQueueLength (q : GitHubApiQueue α β) : Nat := q.queries.length

/-- `getRequestFailCount()`: reduce over the keys of `_errorUrls`,
adding 1 for every entry whose count reached `maxErrorCountPerRequest`. -/
def getRequestFailCount (q : GitHubApiQueue α β) : Nat :=
  q.errorUrls.foldl
    (fun acc p => if q.maxErrorCountPerRequest ≤ p.2 then acc + 1 else acc) 0

/-- `push(...requests)`: append at the tail of the backlog. -/
def push (q : GitHubApiQueue α β) (rs : List (GitHubApiRequest α β)) :
    GitHubApiQueue α β :=
  { q with queries := q.queries ++ rs }

/-- `unshift(...requests)`: insert at the head of the backlog, keeping
the relative order of the inserted requests. -/
def unshift (q : GitHubApiQueue α β) (rs : List (GitHubApiRequest α β)) :
    GitHubApiQueue α β :=
  { q with queries := rs ++ q.queries }

/-- `stop()`. -/
def stop (q : GitHubApiQueue α β) : GitHubApiQueue α β :=
  { q with isStopped := true }

/-- The clients the tick may dispatch on:
`clients.filter(c => c.isAuthorized() && !c.isBusy())`. -/
def availableClients (q : GitHubApiQueue α β) : List GitHubApiClient :=
  q.clients.filter (fun c => c.isAuthorized && !c.isBusy)

/-- Observable outcome of one execution of the `queue()` closure inside
`_process`. -/
inductive TickAction (α β : Type) where
  | exitStopped
  | exitGlobalAbort
  | waitIdle
  | dispatch (batch : List (GitHubApiClient × GitHubApiRequest α β))
  deriving DecidableEq

/-- One tick of the polling loop: exit when stopped; exit reporting the
global abort when `errorCount >= maxErrorCountInTotal`; wait when the
backlog or the available-client set is empty; otherwise pop the tail of
the backlog once per available client (in order) and dispatch the
popped requests to those clients in parallel. -/
def tick (q : GitHubApiQueue α β) :
    TickAction α β × GitHubApiQueue α β :=
  if q.isStopped then (TickAction.exitStopped, q)
  else if q.maxErrorCountInTotal ≤ q.errorCount then (TickAction.exitGlobalAbort, q)
  else
    let avail := q.availableClients
    if q.queries.length == 0 || avail.length == 0 then (TickAction.waitIdle, q)
    else
      let k := min avail.length q.queries.length
      (TickAction.dispatch (avail.zip q.queries.reverse),
        { q with queries := q.queries.take (q.queries.length - k) })

/-- First request handed to a client by a tick, if the tick dispatched. -/
def firstDispatched : TickAction α β → Option (GitHubApiRequest α β)
  | TickAction.dispatch batch => (batch.map Prod.snd).head?
  | _ => none

/-- Completion handler, success branch: `request.runCallback(result)`
touches only user state, so the queue state is unchanged. -/
def onSuccess (q : GitHubApiQueue α β) (_r : GitHubApiRequest α β) :
    GitHubApiQueue α β := q

/-- Completion handler, failure branch: increment `errorCount`, bump
`errorUrls[url]`, then re-insert the request at the head of the backlog
when the bumped count is still below `maxErrorCountPerRequest`, else
drop it (abort). -/
def onFailure (q : GitHubApiQueue α β) (r : GitHubApiRequest α β) :
    GitHubApiQueue α β :=
  let urls := errBump q.errorUrls r.getUrl
  let q1 : GitHubApiQueue α β :=
    { q with errorCount := q.errorCount + 1, errorUrls := urls }
  if errLookup urls r.getUrl < q1.maxErrorCountPerRequest then q1.unshift [r]
  else q1

/-- Queue states reachable from a freshly constructed queue through the
public operations, the polling tick, the completion handlers, and
arbitrary asynchronous evolution of the clients' own state (the queue
only reads the clients). `start()` only logs and runs a tick, so it has
no own constructor. -/
inductive Reachable : GitHubApiQueue α β → Prop where
  | init (clients : List GitHubApiClient) (mpr mtot : Nat) :
      Reachable (mk0 clients mpr mtot)
  | push {q : GitHubApiQueue α β} (rs : List (GitHubApiRequest α β)) :
      Reachable q → Reachable (q.push rs)
  | unshift {q : GitHubApiQueue α β} (rs : List (GitHubApiRequest α β)) :
      Reachable q → Reachable (q.unshift rs)
  | stop {q : GitHubApiQueue α β} : Reachable q → Reachable q.stop
  | tick {q : GitHubApiQueue α β} : Reachable q → Reachable (tick q).2
  | clientSnapshot {q : GitHubApiQueue α β} (cs : List GitHubApiClient) :
      Reachable q → Reachable { q with clients := cs }
  | success {q : GitHubApiQueue α β} (r : GitHubApiRequest α β) :
      Reachable q → Reachable (onSuccess q r)
  | failure {q : GitHubApiQueue α β} (r : GitHubApiRequest α β) :
      Reachable q → Reachable (onFailure q r)

/-- Distinct URLs whose error counter reached the per-request budget,
counted through the map interface. Modelled from the spec:
`getRequestFailCount() = |{ u : errorsByUrl[u] ≥ maxPerRequest }|`. -/
def specDistinctFailedUrlCount (q : GitHubApiQueue α β) : Nat :=
  (((q.errorUrls.map Prod.fst).dedup).filter
    (fun u => q.maxErrorCountPerRequest ≤ errLookup q.errorUrls u)).length

end GitHubApiQueue

/-- The two header-store assignments of `_refresh`:
`this._remainingRequests = parseInt(remaining)` and
`this._resetAt = parseInt(reset) * 1000`. -/
def GitHubApiClient.storedClient (c : GitHubApiClient) (h : Headers) :
    GitHubApiClient :=
  { c with
    remainingRequests := parseIntJS (h.xRatelimitRemaining.getD "")
    resetAt := jmul (parseIntJS (h.xRatelimitReset.getD "")) 1000 }

/-! Concrete fixtures used to instantiate the theorems below on closed
inputs (one authorized, non-busy client and a few requests). -/

/-- A freshly constructed client with the default margins. -/
def wClient : GitHubApiClient := GitHubApiClient.mk0 "github-token-12345" 5 2000

/-- Request fixture `a`. -/
def wReqA : GitHubApiRequest Nat Nat :=
  { url := "https://api.github.com/search/a", params := 0, callback := 0 }

/-- Request fixture `b`. -/
def wReqB : GitHubApiRequest Nat Nat :=
  { url := "https://api.github.com/search/b", params := 1, callback := 0 }

/-- Request fixture `t` (a tail request already enqueued). -/
def wReqT : GitHubApiRequest Nat Nat :=
  { url := "https://api.github.com/search/t", params := 2, callback := 0 }

/-- A request distinct from `wReqA` but with the same URL. -/
def wReqA2 : GitHubApiRequest Nat Nat :=
  { url := "https://api.github.com/search/a", params := 9, callback := 0 }

/-- A freshly constructed queue over the single fixture client. -/
def wQueue : GitHubApiQueue Nat Nat := GitHubApiQueue.mk0 [wClient] 5 5000

/-- The fixture queue with its global error budget exhausted. -/
def wQueueAtBudget : GitHubApiQueue Nat Nat := { wQueue with errorCount := 5000 }

/-- A queue with `maxErrorCountPerRequest = 2` and one failure already
recorded against the URL of `wReqA` (by some other request). -/
def wQueueErr1 : GitHubApiQueue Nat Nat :=
  { (GitHubApiQueue.mk0 [wClient] 2 2000 : GitHubApiQueue Nat Nat) with
    errorCount := 1
    errorUrls := [("https://api.github.com/search/a", 1)] }

/-- Rate-limit headers at the pause boundary: remaining equals the
default safety margin of 5, so `remaining - safety = 0`. -/
def wHeadersBoundary : Headers :=
  { xRatelimitRemaining := some "5", xRatelimitReset := some "100", retryAfter := none }

/-- Headers with the reset header missing. -/
def wHeadersNoReset : Headers :=
  { xRatelimitRemaining := some "10", xRatelimitReset := none, retryAfter := none }

/-- A 429 failure carrying a `Retry-After` header of 120 seconds. -/
def wErr429 : AxiosError :=
  { message := "Too many requests"
    response := some
      { status := 429
        headers := { xRatelimitRemaining := none, xRatelimitReset := none,
                     retryAfter := some "120" } } }

/-- A network failure without an HTTP response. -/
def wErrNet : AxiosError := { message := "Some network error", response := none }

/-- A successful transport response with no recognised headers. -/
def wRespOk : AxiosResponse Nat := { data := 0, headers := none }

/-- Error-accounting invariant of the queue: `errorCount` is the sum of
the per-URL counters, and the per-URL map has no duplicate key. -/
def QueueInv {α β : Type} (q : GitHubApiQueue α β) : Prop :=
  q.errorCount = sumCounts q.errorUrls ∧ (q.errorUrls.map Prod.fst).Nodup

/-! ### Helper lemmas -/

/-- The failure continuation rejects with exactly the original error. -/
theorem requestOnFailure_snd (c : GitHubApiClient) (now : Int) (err : AxiosError) :
    (GitHubApiClient.requestOnFailure c now err).2 = err := rfl

/-- Bumping a URL counter raises the looked-up value by exactly one. -/
theorem errLookup_errBump_self (m : List (String × Nat)) (u : String) :
    errLookup (errBump m u) u = errLookup m u + 1 := by
  induction m with
  | nil => simp [errBump, errLookup]
  | cons p rest ih =>
    by_cases hk : p.1 = u
    · by_cases hv : p.2 = 0 <;> simp [errBump, errLookup, hk, hv]
    · simpa [errBump, errLookup, hk] using ih

/-- Bumping a URL counter raises the total count by exactly one. -/
theorem sumCounts_errBump (m : List (String × Nat)) (u : String) :
    sumCounts (errBump m u) = sumCounts m + 1 := by
  induction m with
  | nil => simp [errBump, sumCounts]
  | cons p rest ih =>
    by_cases hk : p.1 = u
    · by_cases hv : p.2 = 0 <;> simp [errBump, sumCounts, hk, hv] <;> omega
    · simp only [errBump, sumCounts, List.map_cons, List.sum_cons, if_neg hk] at ih ⊢
      simp [hk, ih]
      omega

/-- A key of the bumped map is a key of the old map or the bumped URL. -/
theorem mem_keys_errBump {m : List (String × Nat)} {u x : String}
    (hx : x ∈ (errBump m u).map Prod.fst) : x ∈ m.map Prod.fst ∨ x = u := by
  induction m with
  | nil =>
    simp only [errBump, List.map_cons, List.map_nil, List.mem_singleton] at hx
    exact Or.inr hx
  | cons p rest ih =>
    simp only [errBump] at hx
    by_cases hk : p.1 = u
    · rw [if_pos (by simp [hk])] at hx
      simp only [List.map_cons, List.mem_cons] at hx
      rcases hx with h | h
      · exact Or.inr (h.trans hk)
      · exact Or.inl (List.mem_cons_of_mem _ h)
    · rw [if_neg (by simp [hk])] at hx
      simp only [List.map_cons, List.mem_cons] at hx
      rcases hx with h | h
      · exact Or.inl (by simp [List.map_cons, h])
      · rcases ih h with h2 | h2
        · exact Or.inl (List.mem_cons_of_mem _ h2)
        · exact Or.inr h2

/-- Bumping preserves key distinctness. -/
theorem nodup_keys_errBump {m : List (String × Nat)} (u : String)
    (h : (m.map Prod.fst).Nodup) : ((errBump m u).map Prod.fst).Nodup := by
  induction m with
  | nil => simp [errBump]
  | cons p rest ih =>
    simp only [List.map_cons, List.nodup_cons] at h
    simp only [errBump]
    by_cases hk : p.1 = u
    · rw [if_pos (by simp [hk])]
      simp only [List.map_cons, List.nodup_cons]
      exact h
    · rw [if_neg (by simp [hk])]
      simp only [List.map_cons, List.nodup_cons]
      refine ⟨fun hmem => ?_, ih h.2⟩
      rcases mem_keys_errBump hmem with hm | hm
      · exact h.1 hm
      · exact hk hm

/-- The counting fold of `getRequestFailCount` counts the filtered
entries. -/
theorem foldl_count_eq {γ : Type} (P : γ → Prop) [DecidablePred P]
    (l : List γ) (n : Nat) :
    l.foldl (fun acc x => if P x then acc + 1 else acc) n
      = n + (l.filter (fun x => decide (P x))).length := by
  induction l generalizing n with
  | nil => simp
  | cons a l ih =>
    by_cases hpa : P a
    · simp [hpa, ih]
      omega
    · simp [hpa, ih]

/-- With distinct keys, counting the map entries whose stored value
passes a threshold equals counting the keys whose looked-up value
passes it. -/
theorem filter_keys_count (m : List (String × Nat)) (mx : Nat)
    (h : (m.map Prod.fst).Nodup) :
    ((m.map Prod.fst).filter (fun u => decide (mx ≤ errLookup m u))).length
      = (m.filter (fun p => decide (mx ≤ p.2))).length := by
  induction m with
  | nil => simp
  | cons p rest ih =>
    simp only [List.map_cons, List.nodup_cons] at h
    have hself : errLookup (p :: rest) p.1 = p.2 := by
      simp [errLookup]
    have hcong : ∀ u ∈ rest.map Prod.fst,
        errLookup (p :: rest) u = errLookup rest u := by
      intro u hu
      have hne : ¬ p.1 = u := fun e => h.1 (e ▸ hu)
      simp [errLookup, hne]
    have hfc : (rest.map Prod.fst).filter
          (fun u => decide (mx ≤ errLookup (p :: rest) u))
        = (rest.map Prod.fst).filter (fun u => decide (mx ≤ errLookup rest u)) := by
      refine List.filter_congr ?_
      intro u hu
      simp [hcong u hu]
    by_cases hle : mx ≤ p.2 <;>
      simp [List.filter_cons, hself, hle, hfc, ih h.2]

/-- One tick never changes `errorCount`, `errorUrls`, `isStopped`, or
the limits. -/
theorem tick_snd_frame {α β : Type} (q : GitHubApiQueue α β) :
    ((GitHubApiQueue.tick q).2).errorCount = q.errorCount ∧
    ((GitHubApiQueue.tick q).2).errorUrls = q.errorUrls ∧
    ((GitHubApiQueue.tick q).2).isStopped = q.isStopped ∧
    ((GitHubApiQueue.tick q).2).maxErrorCountPerRequest = q.maxErrorCountPerRequest := by
  by_cases h1 : q.isStopped
  · simp [GitHubApiQueue.tick, h1]
  · by_cases h2 : q.maxErrorCountInTotal ≤ q.errorCount
    · simp [GitHubApiQueue.tick, h1, h2]
    · by_cases h3 : (q.queries.length == 0 || q.availableClients.length == 0) = true
      · simp [GitHubApiQueue.tick, h1, h2, h3]
      · simp [GitHubApiQueue.tick, h1, h2, h3]

/-- `pause` only touches `authorized` and `resumeTimer`. -/
theorem pause_remainingRequests (c : GitHubApiClient) (now : Int) (t : JSNum) :
    (c.pause now t).remainingRequests = c.remainingRequests := by
  by_cases hd : jleZero (jadd (jsub t (some now)) (some c.tokenResumeBufferTime)) = true <;>
    simp [GitHubApiClient.pause, GitHubApiClient.resume, hd]

/-- `pause` only touches `authorized` and `resumeTimer`. -/
theorem pause_resetAt (c : GitHubApiClient) (now : Int) (t : JSNum) :
    (c.pause now t).resetAt = c.resetAt := by
  by_cases hd : jleZero (jadd (jsub t (some now)) (some c.tokenResumeBufferTime)) = true <;>
    simp [GitHubApiClient.pause, GitHubApiClient.resume, hd]

/-- When a tick dispatches, the first dispatched request is the LAST
element of the backlog array (`queries.pop()` pops the tail). -/
theorem tick_dispatches_backlog_tail {α β : Type} (q : GitHubApiQueue α β)
    (hstop : q.isStopped = false)
    (hbudget : q.errorCount < q.maxErrorCountInTotal)
    (havail : q.availableClients ≠ [])
    (hqs : q.queries ≠ []) :
    GitHubApiQueue.firstDispatched (GitHubApiQueue.tick q).1 = q.queries.getLast? := by
  obtain ⟨c, cs, hc⟩ := List.exists_cons_of_ne_nil havail
  obtain ⟨m, ms, hm⟩ := List.exists_cons_of_ne_nil (fun h => hqs (by
    simpa [List.reverse_eq_nil_iff] using congrArg List.reverse
      (h : q.queries.reverse = [])) : q.queries.reverse ≠ [])
  have h2 : ¬ q.maxErrorCountInTotal ≤ q.errorCount := Nat.not_le.mpr hbudget
  have h3 : (q.queries.length == 0 || q.availableClients.length == 0) = false := by
    simp [List.length_eq_zero, hqs, hc]
  rw [← List.head?_reverse]
  unfold GitHubApiQueue.tick
  rw [hstop]
  simp only [Bool.false_eq_true, if_false, if_neg h2, h3, if_false]
  rw [GitHubApiQueue.firstDispatched, hc, hm]
  simp

/-- The completion handler's failure branch preserves the
error-accounting invariant. -/
theorem queueInv_onFailure {α β : Type} {q : GitHubApiQueue α β}
    (r : GitHubApiRequest α β) (h : QueueInv q) : QueueInv (q.onFailure r) := by
  obtain ⟨hsum, hnodup⟩ := h
  by_cases hc : errLookup (errBump q.errorUrls r.getUrl) r.getUrl
      < q.maxErrorCountPerRequest <;>
    exact ⟨by simp [GitHubApiQueue.onFailure, GitHubApiQueue.unshift, hc,
        sumCounts_errBump, hsum],
      by simp [GitHubApiQueue.onFailure, GitHubApiQueue.unshift, hc,
        nodup_keys_errBump _ hnodup]⟩

/-- Every reachable queue state satisfies the error-accounting
invariant. -/
theorem reachable_queueInv {α β : Type} {q : GitHubApiQueue α β}
    (h : GitHubApiQueue.Reachable q) : QueueInv q := by
  induction h with
  | init clients mpr mtot => exact ⟨rfl, List.nodup_nil⟩
  | push rs _ ih => exact ih
  | unshift rs _ ih => exact ih
  | stop _ ih => exact ih
  | tick _ ih =>
    obtain ⟨hsum, hnodup⟩ := ih
    obtain ⟨hec, heu, -, -⟩ := tick_snd_frame _
    exact ⟨by rw [hec, heu, hsum], by rw [heu]; exact hnodup⟩
  | clientSnapshot cs _ ih => exact ih
  | success r _ ih => exact ih
  | failure r _ ih => exact queueInv_onFailure r ih

/-! ### Claims -/

/-- C1 (counterexample): dispatch pops the TAIL of the backlog array
while `unshift` inserts at the head. On an empty backlog with one
available client, `unshift(a, b)` followed by a tick dispatches `b`,
not `a`; and a request re-inserted at the head after a failure (here
`wReqA`, with tail request `wReqT` enqueued) sits at position 0 yet the
next dispatch pops `wReqT`, so the retried request is NOT tried before
the enqueued tail requests. -/
theorem C1_counterexample :
    (wQueue.unshift [wReqA, wReqB]).queries.head? = some wReqA ∧
    GitHubApiQueue.firstDispatched
        (GitHubApiQueue.tick (wQueue.unshift [wReqA, wReqB])).1 = some wReqB ∧
    wReqB ≠ wReqA ∧
    (GitHubApiQueue.onFailure (wQueue.push [wReqT]) wReqA).queries.head? = some wReqA ∧
    GitHubApiQueue.firstDispatched
        (GitHubApiQueue.tick (GitHubApiQueue.onFailure (wQueue.push [wReqT]) wReqA)).1
      = some wReqT ∧
    wReqT ≠ wReqA := by decide

/-- C1 (amended): a request that fails with remaining per-URL budget is
re-inserted at position 0 of the backlog; a dispatching tick always
pops the backlog's LAST element, so the re-inserted request is tried
after all currently-enqueued requests; `unshift(a, b)` preserves head
order (`a` at position 0), and a dispatch after it yields the tail of
the combined backlog — `b` only when the backlog was empty before. -/
theorem C1_amended_head_insert_dispatched_last {α β : Type}
    (q : GitHubApiQueue α β) (r a b : GitHubApiRequest α β) :
    (errLookup (errBump q.errorUrls r.getUrl) r.getUrl < q.maxErrorCountPerRequest →
      (q.onFailure r).queries = r :: q.queries) ∧
    (q.isStopped = false → q.errorCount < q.maxErrorCountInTotal →
      q.availableClients ≠ [] → q.queries ≠ [] →
      GitHubApiQueue.firstDispatched (GitHubApiQueue.tick q).1 = q.queries.getLast?) ∧
    (q.unshift [a, b]).queries.head? = some a ∧
    (q.isStopped = false → q.errorCount < q.maxErrorCountInTotal →
      q.availableClients ≠ [] →
      GitHubApiQueue.firstDispatched (GitHubApiQueue.tick (q.unshift [a, b])).1
        = (a :: b :: q.queries).getLast?) := by
  refine ⟨?_, ?_, ?_, ?_⟩
  · intro hc
    simp [GitHubApiQueue.onFailure, GitHubApiQueue.unshift, hc]
  · intro hstop hbudget havail hqs
    exact tick_dispatches_backlog_tail q hstop hbudget havail hqs
  · simp [GitHubApiQueue.unshift]
  · intro hstop hbudget havail
    have h := tick_dispatches_backlog_tail (q.unshift [a, b]) hstop hbudget
      (by simpa [GitHubApiQueue.availableClients, GitHubApiQueue.unshift] using havail)
      (by simp [GitHubApiQueue.unshift])
    simpa [GitHubApiQueue.unshift] using h

/-- C1 witness: a concrete queue with a tail request and one available
client; the failure re-insert lands at the head and the next dispatch
yields the tail request. -/
theorem C1_amended_witness :
    (errLookup (errBump (wQueue.push [wReqT]).errorUrls wReqA.getUrl) wReqA.getUrl
        < (wQueue.push [wReqT]).maxErrorCountPerRequest) ∧
    (GitHubApiQueue.onFailure (wQueue.push [wReqT]) wReqA).queries
      = wReqA :: (wQueue.push [wReqT]).queries ∧
    GitHubApiQueue.firstDispatched
        (GitHubApiQueue.tick (wQueue.push [wReqT])).1
      = (wQueue.push [wReqT]).queries.getLast? ∧
    ((wQueue.push [wReqT]).unshift [wReqA, wReqB]).queries.head? = some wReqA := by
  have h := C1_amended_head_insert_dispatched_last (wQueue.push [wReqT]) wReqA wReqA wReqB
  exact ⟨by decide, h.1 (by decide),
    h.2.1 (by decide) (by decide) (by decide) (by decide), h.2.2.1⟩

/-- C2 (counterexample): with the default `resumeBuffer = 2000`,
`pause(resetAt)` for a `resetAt` in the past but within the buffer of
`now` (here `resetAt = 9999`, `now = 10000`) leaves the client
UNAUTHORIZED on return, refuting "pause(past) leaves isAuthorized()
true on return". -/
theorem C2_counterexample :
    ((9999 : Int) < 10000) ∧
    (wClient.pause 10000 (some 9999)).authorized = false := by decide

/-- C2 (amended): `pause(resetAt)` cancels any pending resume timer and
computes `delay = resetAt - now + resumeBuffer`; if `delay ≤ 0` the
client is authorized on return with no timer pending, otherwise it is
unauthorized with exactly one pending one-shot timer of that delay
whose firing re-authorizes the client and clears the handle. The
client is authorized on return exactly when `resetAt ≤ now -
resumeBuffer`, not for every past `resetAt`. -/
theorem C2_amended_pause_state_machine (c : GitHubApiClient) (now resetAt : Int) :
    (resetAt - now + c.tokenResumeBufferTime ≤ 0 →
      (c.pause now (some resetAt)).authorized = true ∧
      (c.pause now (some resetAt)).resumeTimer = none) ∧
    (0 < resetAt - now + c.tokenResumeBufferTime →
      (c.pause now (some resetAt)).authorized = false ∧
      (c.pause now (some resetAt)).resumeTimer
        = some (some (resetAt - now + c.tokenResumeBufferTime)) ∧
      ((c.pause now (some resetAt)).fireResumeTimer).authorized = true ∧
      ((c.pause now (some resetAt)).fireResumeTimer).resumeTimer = none) := by
  by_cases hd : resetAt - now + c.tokenResumeBufferTime ≤ 0
  · refine ⟨fun _ => ?_, fun h0 => absurd hd (by omega)⟩
    constructor <;>
      simp [GitHubApiClient.pause, GitHubApiClient.resume, jadd, jsub, jleZero, hd]
  · refine ⟨fun h0 => absurd h0 hd, fun _ => ?_⟩
    refine ⟨?_, ?_, ?_, ?_⟩ <;>
      simp [GitHubApiClient.pause, GitHubApiClient.resume,
        GitHubApiClient.fireResumeTimer, jadd, jsub, jleZero, hd]

/-- C2 witness: pause far in the past resumes on return; pause 1 ms in
the past (buffer 2000) stays paused with one pending timer that
re-authorizes on fire. -/
theorem C2_amended_witness :
    ((5000 : Int) - 10000 + wClient.tokenResumeBufferTime ≤ 0) ∧
    (wClient.pause 10000 (some 5000)).authorized = true ∧
    ((0 : Int) < 9999 - 10000 + wClient.tokenResumeBufferTime) ∧
    (wClient.pause 10000 (some 9999)).authorized = false ∧
    (wClient.pause 10000 (some 9999)).resumeTimer
      = some (some (9999 - 10000 + wClient.tokenResumeBufferTime)) ∧
    ((wClient.pause 10000 (some 9999)).fireResumeTimer).authorized = true := by
  have h1 := C2_amended_pause_state_machine wClient 10000 5000
  have h2 := C2_amended_pause_state_machine wClient 10000 9999
  exact ⟨by decide, (h1.1 (by decide)).1, by decide, (h2.2 (by decide)).1,
    (h2.2 (by decide)).2.1, (h2.2 (by decide)).2.2.1⟩

/-- C3: every transport failure is re-surfaced unchanged, and for a
failure with status 403 or 429 the client first refreshes from the
error's headers and then pauses until `now + Retry-After × 1000` when
that header is present, else until the stored `resetAt` when it is
positive (`busy` cleared afterwards in all cases). -/
theorem C3_403_429_pause_and_resurface (c : GitHubApiClient) (now : Int)
    (err : AxiosError) :
    (GitHubApiClient.requestOnFailure c now err).2 = err ∧
    (∀ resp : ErrResponse, err.response = some resp →
      resp.status = 403 ∨ resp.status = 429 →
      (truthyStr resp.headers.retryAfter = true →
        (GitHubApiClient.requestOnFailure c now err).1 =
          { GitHubApiClient.pause (GitHubApiClient.refresh c now (some resp.headers)) now
              (jadd (some now) (jmul (parseIntJS (resp.headers.retryAfter.getD "")) 1000))
            with busy := false }) ∧
      (truthyStr resp.headers.retryAfter = false →
        jgtZero (GitHubApiClient.refresh c now (some resp.headers)).resetAt = true →
        (GitHubApiClient.requestOnFailure c now err).1 =
          { GitHubApiClient.pause (GitHubApiClient.refresh c now (some resp.headers)) now
              (GitHubApiClient.refresh c now (some resp.headers)).resetAt
            with busy := false })) := by
  refine ⟨rfl, ?_⟩
  intro resp hresp hstatus
  have hsb : (resp.status == 403 || resp.status == 429) = true := by
    rcases hstatus with h | h <;> simp [h]
  constructor
  · intro hra
    unfold GitHubApiClient.requestOnFailure
    rw [hresp]
    simp [hsb, hra]
  · intro hra hreset
    unfold GitHubApiClient.requestOnFailure
    rw [hresp]
    simp [hsb, hra, hreset]

/-- C3 witness: a concrete 429 failure with `Retry-After: 120` pauses
to `now + 120000` and rejects with the original error. -/
theorem C3_witness :
    (GitHubApiClient.requestOnFailure wClient 0 wErr429).2 = wErr429 ∧
    (GitHubApiClient.requestOnFailure wClient 0 wErr429).1 =
      { GitHubApiClient.pause
          (GitHubApiClient.refresh wClient 0
            (some { xRatelimitRemaining := none, xRatelimitReset := none,
                    retryAfter := some "120" })) 0
          (jadd (some 0) (jmul (parseIntJS "120") 1000))
        with busy := false } := by
  have h := C3_403_429_pause_and_resurface wClient 0 wErr429
  exact ⟨h.1, (h.2 _ rfl (Or.inr rfl)).1 (by decide)⟩

/-- C4: when both rate-limit headers are (truthily) present, `_refresh`
stores the parsed remaining count and the parsed reset × 1000, and the
result is `pause(resetAt)` applied to that stored state exactly when
`remaining - safetyMargin ≤ 0` (boundary inclusive), else the stored
state itself. -/
theorem C4_refresh_sets_and_pauses (c : GitHubApiClient) (now : Int) (h : Headers)
    (hrem : truthyStr h.xRatelimitRemaining = true)
    (hrst : truthyStr h.xRatelimitReset = true) :
    (GitHubApiClient.refresh c now (some h)).remainingRequests
      = parseIntJS (h.xRatelimitRemaining.getD "") ∧
    (GitHubApiClient.refresh c now (some h)).resetAt
      = jmul (parseIntJS (h.xRatelimitReset.getD "")) 1000 ∧
    GitHubApiClient.refresh c now (some h)
      = (if jleZero (jsub (c.storedClient h).remainingRequests
            (some c.safetyRemainingRequestCount))
         then GitHubApiClient.pause (c.storedClient h) now (c.storedClient h).resetAt
         else c.storedClient h) := by
  have heq : GitHubApiClient.refresh c now (some h)
      = (if jleZero (jsub (c.storedClient h).remainingRequests
            (some c.safetyRemainingRequestCount))
         then GitHubApiClient.pause (c.storedClient h) now (c.storedClient h).resetAt
         else c.storedClient h) := by
    unfold GitHubApiClient.refresh GitHubApiClient.storedClient
    simp [hrem, hrst]
  refine ⟨?_, ?_, heq⟩ <;> rw [heq] <;> split <;>
    simp [pause_remainingRequests, pause_resetAt, GitHubApiClient.storedClient]

/-- C4 witness: at the inclusive boundary (`remaining = safetyMargin =
5`) the stored values are set and the client is paused. -/
theorem C4_witness :
    truthyStr wHeadersBoundary.xRatelimitRemaining = true ∧
    truthyStr wHeadersBoundary.xRatelimitReset = true ∧
    (GitHubApiClient.refresh wClient 0 (some wHeadersBoundary)).remainingRequests
      = parseIntJS "5" ∧
    (GitHubApiClient.refresh wClient 0 (some wHeadersBoundary)).resetAt
      = jmul (parseIntJS "100") 1000 ∧
    (GitHubApiClient.refresh wClient 0 (some wHeadersBoundary)).authorized = false := by
  have h := C4_refresh_sets_and_pauses wClient 0 wHeadersBoundary (by decide) (by decide)
  exact ⟨by decide, by decide, h.1, h.2.1, by decide⟩

/-- C5: LIFO dispatch — on a running queue with at least one available
client, the tick after `push(a, b)` dispatches `b` first (`push`
appends to the tail, dispatch pops the tail). -/
theorem C5_push_tail_dispatched_first {α β : Type} (q : GitHubApiQueue α β)
    (a b : GitHubApiRequest α β)
    (hstop : q.isStopped = false)
    (hbudget : q.errorCount < q.maxErrorCountInTotal)
    (havail : q.availableClients ≠ []) :
    GitHubApiQueue.firstDispatched (GitHubApiQueue.tick (q.push [a, b])).1 = some b := by
  have h := tick_dispatches_backlog_tail (q.push [a, b]) hstop hbudget
    (by simpa [GitHubApiQueue.availableClients, GitHubApiQueue.push] using havail)
    (by simp [GitHubApiQueue.push])
  rw [h]
  simp [GitHubApiQueue.push]

/-- C5 witness: fresh queue with one authorized idle client; after
pushing `a` then `b`, the tick dispatches `b`. -/
theorem C5_witness :
    wQueue.isStopped = false ∧
    wQueue.errorCount < wQueue.maxErrorCountInTotal ∧
    wQueue.availableClients ≠ [] ∧
    GitHubApiQueue.firstDispatched
        (GitHubApiQueue.tick (wQueue.push [wReqA, wReqB])).1 = some wReqB :=
  ⟨by decide, by decide, by decide,
    C5_push_tail_dispatched_first wQueue wReqA wReqB (by decide) (by decide) (by decide)⟩

/-- C6: when the rate-limit headers are absent (or the headers object
itself is), `_refresh` takes the warning branch and the client state is
completely unchanged — in particular `authorized`, `remainingRequests`
and `resetAt` keep their values and no pause happens. -/
theorem C6_missing_headers_frame (c : GitHubApiClient) (now : Int)
    (headers : Option Headers)
    (h : GitHubApiClient.hasRateLimitHeaders headers = false) :
    GitHubApiClient.refresh c now headers = c ∧
    GitHubApiClient.refreshWarns headers = true := by
  constructor
  · cases headers with
    | none => rfl
    | some hd =>
      have hb : (truthyStr hd.xRatelimitRemaining && truthyStr hd.xRatelimitReset)
          = false := by
        simpa [GitHubApiClient.hasRateLimitHeaders] using h
      unfold GitHubApiClient.refresh
      simp [hb]
  · simp [GitHubApiClient.refreshWarns, h]

/-- C6 witness: headers with the reset header missing leave the fixture
client untouched and hit the warning branch. -/
theorem C6_witness :
    GitHubApiClient.hasRateLimitHeaders (some wHeadersNoReset) = false ∧
    GitHubApiClient.refresh wClient 0 (some wHeadersNoReset) = wClient ∧
    GitHubApiClient.refreshWarns (some wHeadersNoReset) = true := by
  have h := C6_missing_headers_frame wClient 0 (some wHeadersNoReset) (by decide)
  exact ⟨by decide, h.1, h.2⟩

/-- C7: at a tick where the global error budget is exhausted and the
queue is not stopped, the loop reports the abort and terminates with
the state unchanged — nothing is popped or dispatched and `stopped`
stays false (so a later `start` runs again). -/
theorem C7_global_error_budget_abort {α β : Type} (q : GitHubApiQueue α β)
    (hstop : q.isStopped = false)
    (hbudget : q.maxErrorCountInTotal ≤ q.errorCount) :
    GitHubApiQueue.tick q = (GitHubApiQueue.TickAction.exitGlobalAbort, q) ∧
    ((GitHubApiQueue.tick q).2).isStopped = false := by
  have h : GitHubApiQueue.tick q = (GitHubApiQueue.TickAction.exitGlobalAbort, q) := by
    unfold GitHubApiQueue.tick
    rw [hstop]
    simp [hbudget]
  exact ⟨h, by rw [h]; exact hstop⟩

/-- C7 witness: the fixture queue with `errorCount = maxTotal = 5000`
aborts the tick with its state unchanged. -/
theorem C7_witness :
    wQueueAtBudget.isStopped = false ∧
    wQueueAtBudget.maxErrorCountInTotal ≤ wQueueAtBudget.errorCount ∧
    GitHubApiQueue.tick wQueueAtBudget
      = (GitHubApiQueue.TickAction.exitGlobalAbort, wQueueAtBudget) :=
  ⟨by decide, by decide,
    (C7_global_error_budget_abort wQueueAtBudget (by decide) (by decide)).1⟩

/-- C8: in every reachable queue state, `errorCount` is the sum of the
per-URL counters and `getRequestFailCount()` equals the number of
distinct URLs whose counter reached `maxErrorCountPerRequest`;
`Reachable` is closed under `push`, `unshift`, `stop`, the tick, both
completion handlers and client evolution (and `start` only re-enters
the tick), so the invariant is preserved by all of them. -/
theorem C8_error_count_invariants {α β : Type} (q : GitHubApiQueue α β)
    (h : GitHubApiQueue.Reachable q) :
    q.errorCount = sumCounts q.errorUrls ∧
    q.getRequestFailCount = q.specDistinctFailedUrlCount := by
  obtain ⟨hsum, hnodup⟩ := reachable_queueInv h
  refine ⟨hsum, ?_⟩
  unfold GitHubApiQueue.getRequestFailCount GitHubApiQueue.specDistinctFailedUrlCount
  rw [List.dedup_eq_self.mpr hnodup,
    foldl_count_eq (fun p : String × Nat => q.maxErrorCountPerRequest ≤ p.2)
      q.errorUrls 0,
    filter_keys_count q.errorUrls q.maxErrorCountPerRequest hnodup]
  simp

/-- C8 witness: a concrete reachable state (one push, one failure with
budget 2) satisfies both accounting equations. -/
theorem C8_witness :
    (GitHubApiQueue.onFailure
        ((GitHubApiQueue.mk0 [wClient] 2 2000 : GitHubApiQueue Nat Nat).push [wReqA])
        wReqA).errorCount
      = sumCounts (GitHubApiQueue.onFailure
          ((GitHubApiQueue.mk0 [wClient] 2 2000 : GitHubApiQueue Nat Nat).push [wReqA])
          wReqA).errorUrls ∧
    (GitHubApiQueue.onFailure
        ((GitHubApiQueue.mk0 [wClient] 2 2000 : GitHubApiQueue Nat Nat).push [wReqA])
        wReqA).getRequestFailCount
      = (GitHubApiQueue.onFailure
          ((GitHubApiQueue.mk0 [wClient] 2 2000 : GitHubApiQueue Nat Nat).push [wReqA])
          wReqA).specDistinctFailedUrlCount :=
  C8_error_count_invariants _
    (GitHubApiQueue.Reachable.failure _
      (GitHubApiQueue.Reachable.push _ (GitHubApiQueue.Reachable.init _ _ _)))

/-- C9 (counterexample): calling `request` with `params = null` throws
a synchronous `TypeError` (the `params = {}` default only applies to an
absent/`undefined` argument), so the caller does NOT receive a promise,
refuting "never throws synchronously, including null params". -/
theorem C9_counterexample :
    (GitHubApiClient.request wClient 0 "https://api.github.com/search/a"
        (ParamsArg.null : ParamsArg Nat) (Except.ok wRespOk)).2
      = Except.error "TypeError: Cannot read properties of null (reading method)" := rfl

/-- C9 (amended): for every url and every params argument that is
absent (`undefined`) or an object — every params other than `null` —
`request` never throws synchronously and the returned promise settles
exactly with the transport outcome: the result on success, the same
error on failure. -/
theorem C9_amended_no_sync_throw (π δ : Type) (c : GitHubApiClient) (now : Int)
    (url : String) (params : ParamsArg π)
    (outcome : Except AxiosError (AxiosResponse δ))
    (hp : params ≠ ParamsArg.null) :
    (GitHubApiClient.request c now url params outcome).2 = Except.ok outcome := by
  cases params with
  | null => exact absurd rfl hp
  | undef => cases outcome with
    | ok r => rfl
    | error e => rfl
  | obj p => cases outcome with
    | ok r => rfl
    | error e => rfl

/-- C9 witness: with `params` absent the failing transport outcome is
re-surfaced through the promise, with no synchronous throw. -/
theorem C9_amended_witness :
    ((ParamsArg.undef : ParamsArg Nat) ≠ ParamsArg.null) ∧
    (GitHubApiClient.request wClient 0 "https://api.github.com/search/a"
        (ParamsArg.undef : ParamsArg Nat)
        (Except.error wErrNet : Except AxiosError (AxiosResponse Nat))).2
      = Except.ok (Except.error wErrNet : Except AxiosError (AxiosResponse Nat)) :=
  ⟨by decide, C9_amended_no_sync_throw Nat Nat wClient 0
    "https://api.github.com/search/a" ParamsArg.undef (Except.error wErrNet) (by decide)⟩

/-- C10: the failure budget is keyed by URL string, not by Request
identity — a failure of any request bumps the counter consulted for
every request with the same URL, and a request whose URL already
accumulated `maxPerRequest - 1` failures is dropped without re-enqueue
on its first own failure, the counter then sitting at the budget. -/
theorem C10_budget_keyed_by_url {α β : Type} (q : GitHubApiQueue α β)
    (r rOther : GitHubApiRequest α β) (hurl : r.url = rOther.url) :
    errLookup (q.onFailure rOther).errorUrls r.url
      = errLookup q.errorUrls r.url + 1 ∧
    (errLookup q.errorUrls r.url + 1 = q.maxErrorCountPerRequest →
      (q.onFailure r).queries = q.queries ∧
      errLookup (q.onFailure r).errorUrls r.url = q.maxErrorCountPerRequest) := by
  constructor
  · have hurls : (q.onFailure rOther).errorUrls = errBump q.errorUrls rOther.getUrl := by
      by_cases hc : errLookup (errBump q.errorUrls rOther.getUrl) rOther.getUrl
          < q.maxErrorCountPerRequest <;>
        simp [GitHubApiQueue.onFailure, GitHubApiQueue.unshift, hc]
    rw [hurls, GitHubApiRequest.getUrl, ← hurl, errLookup_errBump_self]
  · intro hmax
    have hlk : errLookup (errBump q.errorUrls r.getUrl) r.getUrl
        = q.maxErrorCountPerRequest := by
      rw [GitHubApiRequest.getUrl, errLookup_errBump_self]
      exact hmax
    have hnc : ¬ errLookup (errBump q.errorUrls r.getUrl) r.getUrl
        < q.maxErrorCountPerRequest := by omega
    constructor
    · simp [GitHubApiQueue.onFailure, hnc]
    · simp only [GitHubApiQueue.onFailure, if_neg hnc]
      exact hlk

/-- C10 witness: with budget 2 and one prior failure recorded for the
URL by a different request, a first own failure of `wReqA` is dropped
(backlog unchanged) and the shared counter reaches the budget. -/
theorem C10_witness :
    wReqA.url = wReqA2.url ∧
    wReqA ≠ wReqA2 ∧
    errLookup (wQueueErr1.onFailure wReqA2).errorUrls wReqA.url
      = errLookup wQueueErr1.errorUrls wReqA.url + 1 ∧
    (errLookup wQueueErr1.errorUrls wReqA.url + 1
      = wQueueErr1.maxErrorCountPerRequest) ∧
    (wQueueErr1.onFailure wReqA).queries = wQueueErr1.queries ∧
    errLookup (wQueueErr1.onFailure wReqA).errorUrls wReqA.url
      = wQueueErr1.maxErrorCountPerRequest := by
  have h := C10_budget_keyed_by_url wQueueErr1 wReqA wReqA2 (by decide)
  have h2 := C10_budget_keyed_by_url wQueueErr1 wReqA wReqA (by decide)
  exact ⟨by decide, by decide, h.1, by decide,
    (h2.2 (by decide)).1, (h2.2 (by decide)).2⟩

end PoolinGH
